import Mathlib

/-!
Verification development for the KafkaOS simulation (kos_core.py, kos_auth.py,
kos_bureaucracy.py, kos_fs.py, kos_shutdown.py, kos_rejection.py, kos_config.py,
main_kos.py).

Modelling conventions, used uniformly below:
- The global dictionary `os_state` of kos_core.py becomes the structure `OSState`.
  The `utils` sub-dictionary (a function table) and `last_command_ref` (an
  informational pseudo-uuid, never read by any decision) are not fields; the
  function stored under `utils.check_time_limit` is modelled explicitly.
- `time.monotonic()` and `datetime.now()` results are inputs of each function:
  monotonic instants are integers (only subtraction and order comparison are
  performed on them), wall-clock data is passed as `minute` / `day_of_week`
  naturals, and each `random.random() < p` comparison becomes an injected
  boolean draw.
- Python exception semantics is explicit: `Outcome a` is the result of a call,
  either a normal return, a raised exception (`TypeError` is the only one that
  occurs), or a raised `SystemExit code` from `sys.exit(code)`.  The state at
  the moment of the raise is carried along, as Python mutations before a raise
  persist.  `except Exception` catches `Outcome.exc` but not `Outcome.exit`,
  since `SystemExit` does not derive from `Exception`.
- Logging (`log_system_message`), `print`, and sleeping (`sleep_random`,
  `random_delay`) have no effect on the state and are dropped.
  `perform_simulated_check` always returns `(True, code)` in the source; the
  code string is never compared, so the call is dropped as well.
- Forwarding events are recorded as the list of entity keys passed to
  `simulate_forwarding`, in call order.
-/

/-- Values stored in the args dictionary produced by `parse_args`
(kos_core.py): either a string taken from the command line or a Python
boolean (`True` for value-less flags). -/
inductive PyVal where
  | str (s : String)
  | pybool (b : Bool)
deriving DecidableEq, Repr

/-- The mutable session state `os_state` of kos_core.py (fields `user_id`,
`is_authenticated`, `session_start_time`, `pending_reviews`,
`current_directory`).  `session_start_time = 0` is the sentinel for a timer
that has not started, exactly as in the source. -/
structure OSState where
  user_id : Option String
  is_authenticated : Bool
  session_start_time : Int
  pending_reviews : Nat
  current_directory : String
deriving DecidableEq, Repr

/-- The initial `os_state` literal of kos_core.py. -/
def initial_os_state : OSState :=
  { user_id := none, is_authenticated := false, session_start_time := 0,
    pending_reviews := 0, current_directory := "/home/user" }

/-- Python exceptions that occur in the embedded code.  The only one raised by
the engine itself is `TypeError`, from calling the one-parameter function
`check_time_limit` with two positional arguments. -/
inductive PyExc where
  | typeError
deriving DecidableEq, Repr

/-- Result of running a piece of Python code: normal return with a value,
a raised exception (subclass of `Exception`), or a raised `SystemExit`
from `sys.exit`.  Each constructor carries the state at that moment and the
forwarding events emitted so far. -/
inductive Outcome (α : Type) where
  | ok (val : α) (s : OSState) (evs : List String)
  | exc (e : PyExc) (s : OSState) (evs : List String)
  | exit (code : Nat) (s : OSState) (evs : List String)
deriving DecidableEq, Repr

/-- State component of an `Outcome`, whichever way the call ended. -/
def Outcome.state {α : Type} : Outcome α → OSState
  | Outcome.ok _ s _ => s
  | Outcome.exc _ s _ => s
  | Outcome.exit _ s _ => s

/-- Forwarding events emitted by a call, whichever way it ended. -/
def Outcome.events {α : Type} : Outcome α → List String
  | Outcome.ok _ _ e => e
  | Outcome.exc _ _ e => e
  | Outcome.exit _ _ e => e

/-- kos_config.py: `TIME_LIMIT_SECONDS = 180`. -/
def TIME_LIMIT_SECONDS : Int := 180

/-- kos_config.py: `CONFIRMATION_PHRASE`. -/
def CONFIRMATION_PHRASE : String := "I_ACKNOWLEDGE_AND_COMPLY_WITH_ALL_PROTOCOLS"

/-- kos_config.py: `STANDARD_PURPOSE_CODE_FS = "FS-QUERY-7701"`. -/
def STANDARD_PURPOSE_CODE_FS : String := "FS-QUERY-7701"

/-- kos_config.py: `SHUTDOWN_AUTH_CODE_BASE = "HALT_SYS_MOD_"`. -/
def SHUTDOWN_AUTH_CODE_BASE : String := "HALT_SYS_MOD_"

/-- kos_config.py: `LOCKOUT_PRIME_MINUTE_FILESYSTEM_DAY = 1` (0=Mon, 1=Tue). -/
def LOCKOUT_PRIME_MINUTE_FILESYSTEM_DAY : Nat := 1

/-- kos_config.py: `HIGH_FRICTION_REVIEW_THRESHOLD = 5`. -/
def HIGH_FRICTION_REVIEW_THRESHOLD : Nat := 5

/-- kos_rejection.py: `MAX_VERIFICATION_CYCLES = 3`. -/
def MAX_VERIFICATION_CYCLES : Nat := 3

/-- kos_bureaucracy.py `simulate_forwarding(os_state, entity_key, context_ref,
detail)`: logs, increments `os_state["pending_reviews"]` by one, sleeps, and
returns `None`.  It cannot fail.  The result here is the updated state paired
with the single recorded forwarding event (its entity key). -/
def simulate_forwarding (s : OSState) (entity_key : String) : OSState × List String :=
  ({ s with pending_reviews := s.pending_reviews + 1 }, [entity_key])

/-- kos_bureaucracy.py `apply_procedural_friction`: when `pending_reviews`
exceeds `HIGH_FRICTION_REVIEW_THRESHOLD` it logs and sleeps; it never changes
the state, so on states it is the identity. -/
def apply_procedural_friction (s : OSState) : OSState := s

/-- kos_core.py `check_time_limit(step_name="Operational Phase")`, the actual
one-parameter definition, called with correct arity only from `command_loop`.
It reads `session_start_time` from the global state, returns immediately when
the timer has not started, and calls `sys.exit(2)` when
`elapsed > TIME_LIMIT_SECONDS`.  Result: `some code` models `sys.exit(code)`
being raised, `none` a normal return.  The 80-percent advisory branch only
logs. -/
def check_time_limit (s : OSState) (now : Int) : Option Nat :=
  if s.session_start_time = 0 then none
  else if now - s.session_start_time > TIME_LIMIT_SECONDS then some 2
  else none

/-- Every handler module fetches `check_time = os_state["utils"]["check_time_limit"]`
and calls it with TWO positional arguments, e.g.
`check_time(os_state["session_start_time"], "Authentication")` (kos_auth.py),
`check_time_limit(os_state["session_start_time"], f"...")` (kos_bureaucracy.py),
`check_time(os_state["session_start_time"], "System Shutdown Sequence")`
(kos_shutdown.py).  The stored function `check_time_limit` (kos_core.py)
accepts at most one positional argument, so in Python every such call raises
`TypeError` before the body of `check_time_limit` runs and before the time
comparison happens.  This definition is that call. -/
def check_time_limit_two_arg_call (s : OSState) : Outcome Unit :=
  Outcome.exc PyExc.typeError s []

/-- kos_auth.py `handle_login(os_state, args_dict, positional_args,
get_input_func)`.  Inputs consumed from the prompt: the username, a password
(read but never inspected, so not a parameter), and the MFA token; `now` is
the `time.monotonic()` instant read on success.  The body after the
`check_time(...)` two-argument call is translated in full even though that
call raises `TypeError` first: `perform_simulated_check` always succeeds, an
empty username aborts, a token that is not exactly six digits aborts, and on
success `user_id`, `is_authenticated` and `session_start_time` are set and an
AUTH forwarding event is raised. -/
def handle_login (s : OSState) (username mfa : String) (now : Int) : Outcome Unit :=
  if s.is_authenticated then Outcome.ok () s []
  else
    match check_time_limit_two_arg_call s with
    | Outcome.exc e s1 evs1 => Outcome.exc e s1 evs1
    | Outcome.exit c s1 evs1 => Outcome.exit c s1 evs1
    | Outcome.ok _ s1 evs1 =>
      if username = "" then Outcome.ok () s1 evs1
      else
        match check_time_limit_two_arg_call s1 with
        | Outcome.exc e s2 evs2 => Outcome.exc e s2 (evs1 ++ evs2)
        | Outcome.exit c s2 evs2 => Outcome.exit c s2 (evs1 ++ evs2)
        | Outcome.ok _ s2 evs2 =>
          if ¬ (mfa.toList ≠ [] ∧ mfa.toList.all Char.isDigit ∧ mfa.toList.length = 6) then
            Outcome.ok () s2 (evs1 ++ evs2)
          else
            let s3 : OSState :=
              { s2 with user_id := some username, is_authenticated := true,
                        session_start_time := now }
            let f := simulate_forwarding s3 "AUTH"
            Outcome.ok () f.1 (evs1 ++ evs2 ++ f.2)

/-- kos_auth.py `handle_logout`: without an active session it returns; a
confirmation other than the exact phrase aborts; otherwise an AUTH forwarding
event is raised and then `user_id`, `is_authenticated`, `session_start_time`
are cleared. -/
def handle_logout (s : OSState) (confirm : String) : Outcome Unit :=
  if ¬ s.is_authenticated then Outcome.ok () s []
  else if confirm ≠ "TERMINATE_SESSION" then Outcome.ok () s []
  else
    let f := simulate_forwarding s "AUTH"
    Outcome.ok ()
      { f.1 with user_id := none, is_authenticated := false, session_start_time := 0 }
      f.2

/-- Python `pre_chars` being a leading segment of `s_chars`, on character
lists; used to embed `str.startswith`. -/
def py_starts_with_chars : List Char → List Char → Bool
  | [], _ => true
  | _ :: _, [] => false
  | p :: ps, c :: cs => p == c && py_starts_with_chars ps cs

/-- Python `s.startswith(pre)`. -/
def py_starts_with (s pre : String) : Bool := py_starts_with_chars pre.toList s.toList

/-- Python `s.lower()` (only ASCII command names reach it in the source). -/
def py_lower (s : String) : String := String.mk (s.toList.map Char.toLower)

/-- Python `s[n:]` on a string. -/
def py_drop (s : String) (n : Nat) : String := String.mk (s.toList.drop n)

/-- Python `key, value = arg.split('=', 1)`: split at the first `=`.
Callers only use it when `=` occurs in `arg`. -/
def split_once_on_eq (s : String) : String × String :=
  match s.toList.span (fun c => c ≠ '=') with
  | (before, []) => (String.mk before, "")
  | (before, _ :: after) => (String.mk before, String.mk after)

/-- The args dictionary of `parse_args`.  Assignment prepends, lookup takes
the first hit, which matches Python dict writes shadowing earlier ones. -/
abbrev ArgsDict : Type := List (String × PyVal)

/-- Python `args[key] = value`. -/
def dict_set (d : ArgsDict) (k : String) (v : PyVal) : ArgsDict := (k, v) :: d

/-- Python `args.get(key)`. -/
def dict_get (d : ArgsDict) (k : String) : Option PyVal :=
  (List.find? (fun p => p.1 == k) d).map (fun p => p.2)

/-- kos_core.py `parse_args`, the single-dash branch: `for char in arg[1:]:
args[char] = True`, setting each character key to the Python boolean `True`. -/
def dict_set_chars (d : ArgsDict) : List Char → ArgsDict
  | [] => d
  | c :: cs => dict_set_chars (dict_set d (String.mk [c]) (PyVal.pybool true)) cs

/-- kos_core.py `parse_args(arg_list)` while-loop, as recursion on the
remaining tokens, carrying the args dictionary and the positional list.
`--key=value` stores the string after the first `=`; bare `--key` consumes the
next token as its value only when that token does not start with `-`;
a single-dash token sets one boolean per character and never consumes the next
token; anything else is positional. -/
def parse_args_go (args : ArgsDict) (positional : List String) :
    List String → ArgsDict × List String
  | [] => (args, positional)
  | arg :: rest =>
    if py_starts_with arg "--" then
      if arg.toList.contains '=' then
        let kv := split_once_on_eq arg
        parse_args_go (dict_set args (py_drop kv.1 2) (PyVal.str kv.2)) positional rest
      else
        match rest with
        | [] => parse_args_go (dict_set args (py_drop arg 2) (PyVal.pybool true)) positional []
        | next :: rest2 =>
          if py_starts_with next "-" then
            parse_args_go (dict_set args (py_drop arg 2) (PyVal.pybool true)) positional
              (next :: rest2)
          else
            parse_args_go (dict_set args (py_drop arg 2) (PyVal.str next)) positional rest2
    else if py_starts_with arg "-" then
      parse_args_go (dict_set_chars args (py_drop arg 1).toList) positional rest
    else
      parse_args_go args (positional ++ [arg]) rest

/-- kos_core.py `parse_args(arg_list)`: returns the args dictionary and the
positional arguments. -/
def parse_args (arg_list : List String) : ArgsDict × List String :=
  parse_args_go [] [] arg_list

/-- Python truthiness of an optional dict value: `None` and `""` and `False`
are falsy. -/
def py_truthy : Option PyVal → Bool
  | none => false
  | some (PyVal.str t) => t ≠ ""
  | some (PyVal.pybool b) => b

/-- Python `a or b` on two dict lookups, as in
`args_dict.get("p") or args_dict.get("purpose")`: the first operand when it is
truthy, otherwise the second. -/
def py_or (a b : Option PyVal) : Option PyVal := if py_truthy a then a else b

/-- Python `v == code` where `v` came from a dict lookup and `code` is a
string: only a string value can be equal to a string; `None` and `True` are
never equal to a string. -/
def py_val_eq_str : Option PyVal → String → Bool
  | some (PyVal.str t), u => t == u
  | _, _ => false

/-- kos_fs.py `handle_ls` purpose gate (lines around
`purpose_code = args_dict.get("p") or args_dict.get("purpose")` followed by
`if purpose_code != kos_config.STANDARD_PURPOSE_CODE_FS: ... return`):
`true` means the equality holds and the command proceeds past this check. -/
def ls_purpose_gate (d : ArgsDict) : Bool :=
  py_val_eq_str (py_or (dict_get d "p") (dict_get d "purpose")) STANDARD_PURPOSE_CODE_FS

/-- Largest `i ≤ k` with `i * i ≤ n` (and `0` when `k = 0`): structural helper
for the integer square root. -/
def int_sqrt_go (n : Nat) : Nat → Nat
  | 0 => 0
  | k + 1 => if (k + 1) * (k + 1) ≤ n then k + 1 else int_sqrt_go n k

/-- Python `int(minute ** 0.5)` (kos_bureaucracy.py rule 1): the integer
square root.  For the minutes 0..59 that reach it, the float computation in
the source is exact. -/
def int_sqrt (n : Nat) : Nat := int_sqrt_go n n

/-- kos_bureaucracy.py `check_operational_mandate` rule 1 primality test,
verbatim: minutes below 2 are not prime, otherwise trial division over
`range(2, int(minute ** 0.5) + 1)`. -/
def is_prime_src (minute : Nat) : Bool :=
  if minute < 2 then false
  else (List.range' 2 (int_sqrt minute - 1)).all (fun i => minute % i != 0)

/-- kos_bureaucracy.py `check_operational_mandate(os_state, required_clearance)`.
Time inputs (`minute`, `day_of_week`) and the two random comparisons
(`draw_backlog` for `random.random() < 0.2`, `draw_spot` for
`random.random() < LOCKOUT_RANDOM_FAILURE_CHANCE`) are injected.  The friction
call changes no state.  Result: the returned boolean (`true` = allowed), the
state after the call, and the forwarding events raised.  Each denial branch
raises exactly one ARBITRARY_LOCKOUT forwarding event and returns `False`. -/
def check_operational_mandate (s : OSState) (required_clearance : String)
    (day_of_week minute : Nat) (draw_backlog draw_spot : Bool) :
    Bool × OSState × List String :=
  let s0 := apply_procedural_friction s
  if required_clearance = "FILESYSTEM"
      ∧ day_of_week = LOCKOUT_PRIME_MINUTE_FILESYSTEM_DAY
      ∧ is_prime_src minute = true then
    let f := simulate_forwarding s0 "ARBITRARY_LOCKOUT"
    (false, f.1, f.2)
  else if s0.pending_reviews > 10 ∧ draw_backlog = true then
    let f := simulate_forwarding s0 "ARBITRARY_LOCKOUT"
    (false, f.1, f.2)
  else if draw_spot = true then
    let f := simulate_forwarding s0 "ARBITRARY_LOCKOUT"
    (false, f.1, f.2)
  else (true, s0, [])

/-- kos_bureaucracy.py `verify_action_intent` step 4 (completion): final
friction, a CMD_INTENT forwarding event, `return True`. -/
def verify_step4 (s : OSState) (evs : List String) : Outcome Bool :=
  let s0 := apply_procedural_friction s
  let f := simulate_forwarding s0 "CMD_INTENT"
  Outcome.ok true f.1 (evs ++ f.2)

/-- kos_bureaucracy.py `verify_action_intent` step 3 (re-authentication, only
when required and authenticated): another two-argument `check_time_limit` call
(a `TypeError` in Python), then the re-entered user id is compared with
`os_state["user_id"]`; mismatch raises a RE_AUTH failure event and returns
`False`, match raises a RE_AUTH success event and proceeds to step 4. -/
def verify_step3 (s : OSState) (reauth_input : String) (requires_reauth : Bool)
    (evs : List String) : Outcome Bool :=
  if requires_reauth ∧ s.is_authenticated = true then
    match check_time_limit_two_arg_call s with
    | Outcome.exc e s1 evs1 => Outcome.exc e s1 (evs ++ evs1)
    | Outcome.exit c s1 evs1 => Outcome.exit c s1 (evs ++ evs1)
    | Outcome.ok _ s1 evs1 =>
      if s1.user_id ≠ some reauth_input then
        let f := simulate_forwarding s1 "RE_AUTH"
        Outcome.ok false f.1 (evs ++ evs1 ++ f.2)
      else
        let f := simulate_forwarding s1 "RE_AUTH"
        verify_step4 f.1 (evs ++ evs1 ++ f.2)
  else verify_step4 s evs

/-- kos_bureaucracy.py `verify_action_intent` step 2 (purpose code, only when
required): another two-argument `check_time_limit` call (a `TypeError` in
Python), then `perform_simulated_check` (always successful, the failure branch
is dead) and a PURPOSE_VALIDATION forwarding event, then step 3. -/
def verify_step2 (s : OSState) (reauth_input : String)
    (requires_purpose requires_reauth : Bool) (evs : List String) : Outcome Bool :=
  if requires_purpose then
    match check_time_limit_two_arg_call s with
    | Outcome.exc e s1 evs1 => Outcome.exc e s1 (evs ++ evs1)
    | Outcome.exit c s1 evs1 => Outcome.exit c s1 (evs ++ evs1)
    | Outcome.ok _ s1 evs1 =>
      let f := simulate_forwarding s1 "PURPOSE_VALIDATION"
      verify_step3 f.1 reauth_input requires_reauth (evs ++ evs1 ++ f.2)
  else verify_step3 s reauth_input requires_reauth evs

/-- kos_bureaucracy.py `verify_action_intent(os_state, command_name,
get_input_func, requires_purpose, purpose_code_expected, requires_reauth)`.
Its first action after logging is
`check_time_limit(os_state["session_start_time"], f"Intent Verification ...")`
with two positional arguments, a `TypeError` in Python; the rest of the body
(friction, the confirmation-phrase comparison against `CONFIRMATION_PHRASE`,
then steps 2-4) is translated in full although it is unreachable.
`confirm_input` and `reauth_input` are the two prompted strings.
`purpose_code_expected` is only interpolated into log text, so it is not a
parameter here. -/
def verify_action_intent (s : OSState) (confirm_input reauth_input : String)
    (requires_purpose requires_reauth : Bool) : Outcome Bool :=
  match check_time_limit_two_arg_call s with
  | Outcome.exc e s1 evs1 => Outcome.exc e s1 evs1
  | Outcome.exit c s1 evs1 => Outcome.exit c s1 evs1
  | Outcome.ok _ s1 evs1 =>
    let s2 := apply_procedural_friction s1
    if confirm_input ≠ CONFIRMATION_PHRASE then Outcome.ok false s2 evs1
    else verify_step2 s2 reauth_input requires_purpose requires_reauth evs1

/-- kos_shutdown.py: the tail of `handle_shutdown` after all gates have
passed: two final simulated checks (no state effect), one SHUTDOWN forwarding
event, `is_authenticated = False` (note: `user_id` is NOT cleared), then
`sys.exit(0)`. -/
def shutdown_finalize (s : OSState) (evs : List String) : Outcome Unit :=
  let f := simulate_forwarding s "SHUTDOWN"
  Outcome.exit 0 { f.1 with is_authenticated := false } (evs ++ f.2)

/-- kos_shutdown.py: the minute/second auth code
`SHUTDOWN_AUTH_CODE_BASE + f"{now.minute:02d}{now.second % 10}"`. -/
def shutdown_expected_code (minute second : Nat) : String :=
  SHUTDOWN_AUTH_CODE_BASE
    ++ (if minute < 10 then "0" ++ toString minute else toString minute)
    ++ toString (second % 10)

/-- kos_shutdown.py `handle_shutdown(os_state, args_dict, positional_args,
get_input_func, forced)`.  `force_flag` and `f_flag` are the truthiness of
`args_dict.get("force")` and `args_dict.get("f")`.  Unauthenticated and not
forced: plain return.  Not forced: a two-argument `check_time_limit` call (a
`TypeError` in Python) and then, in unreachable code, intent verification with
re-authentication followed by the `--auth-code` comparison.  Forced (or after
all gates): `shutdown_finalize`. -/
def handle_shutdown (s : OSState) (force_flag f_flag forced : Bool)
    (auth_code : Option String) (confirm_input reauth_input : String)
    (minute second : Nat) : Outcome Unit :=
  let is_forced := forced || force_flag || f_flag
  if s.is_authenticated = false ∧ is_forced = false then Outcome.ok () s []
  else if is_forced = false then
    match check_time_limit_two_arg_call s with
    | Outcome.exc e s1 evs1 => Outcome.exc e s1 evs1
    | Outcome.exit c s1 evs1 => Outcome.exit c s1 evs1
    | Outcome.ok _ s1 evs1 =>
      match verify_action_intent s1 confirm_input reauth_input false true with
      | Outcome.exc e s2 evs2 => Outcome.exc e s2 (evs1 ++ evs2)
      | Outcome.exit c s2 evs2 => Outcome.exit c s2 (evs1 ++ evs2)
      | Outcome.ok verified s2 evs2 =>
        if verified = false then Outcome.ok () s2 (evs1 ++ evs2)
        else if auth_code ≠ some (shutdown_expected_code minute second) then
          Outcome.ok () s2 (evs1 ++ evs2)
        else shutdown_finalize s2 (evs1 ++ evs2)
  else shutdown_finalize s []

/-- Observable steps of the Circular Rejection Protocol of kos_rejection.py:
the start of a numbered verification cycle, the outcome of the command-line
re-confirmation (log-only, never an early exit), the syntactic check of the
justification code, the unconditional semantic rejection of a well-formed
code, a call to `apply_procedural_friction`, and a `simulate_forwarding` call
with the given entity key. -/
inductive RejEvent where
  | cycleStart (n : Nat)
  | reconfirmMatched (ok : Bool)
  | justificationFormatOk (ok : Bool)
  | justificationRejected
  | friction
  | forwarded (entity : String)
deriving DecidableEq, Repr

/-- kos_rejection.py step B format test:
`justification.startswith("GJC-") and len(justification.split('-')) == 3`. -/
def gjc_format_ok (j : String) : Bool :=
  py_starts_with j "GJC-" && (j.toList.filter (fun c => c == '-')).length + 1 == 3

/-- Python `" ".join(xs)`. -/
def join_spaces : List String → String
  | [] => ""
  | [x] => x
  | x :: y :: xs => x ++ " " ++ join_spaces (y :: xs)

/-- One verification cycle of the Circular Rejection Protocol: re-confirmation
of the original command line (a mismatch only raises log severity), then the
justification code (a bad format fails at once; a good format is validated
against CAAM and always rejected), then friction.  No branch leaves the
cycle early and no branch can succeed. -/
def rejection_cycle (original_line reconfirm justification : String) (cycle : Nat) :
    List RejEvent :=
  if gjc_format_ok justification then
    [RejEvent.cycleStart cycle,
     RejEvent.reconfirmMatched (decide (reconfirm = original_line)),
     RejEvent.justificationFormatOk true, RejEvent.justificationRejected,
     RejEvent.friction]
  else
    [RejEvent.cycleStart cycle,
     RejEvent.reconfirmMatched (decide (reconfirm = original_line)),
     RejEvent.justificationFormatOk false,
     RejEvent.friction]

/-- Modelled from the spec: `rejectAndChallenge` (spec section 4.6) /
`handle_rejected_command` of kos_rejection.py.  The source text of this one
function is corrupted by a misplaced paste: inside
`if cycle < MAX_VERIFICATION_CYCLES - 1:` a dangling fragment `kos_` remains,
the final-accusation block that belongs after the loop is spliced into the
middle of the call `kos_utility.sleep_random(kos_config.BASE_CHECK_DELAY_SHORT_MS)`,
and the trailing `else:` is left without a matching `if`, so the module does
not parse and the function cannot run.  This definition follows the spec and
the evident pre-corruption text: an initial pretextual rejection with
friction, exactly `MAX_VERIFICATION_CYCLES` cycles (`inputs k` gives the
re-typed command line and the justification code of cycle `k`), then exactly
one terminal forwarding event to Security Incident Reporting, with
`pending_reviews` incremented once.  The budget checks inside the loop are
elided (with an unexpired budget they change nothing).  There is no success
result and the rejected command is never executed. -/
def handle_rejected_command (s : OSState) (command_name : String)
    (positional_args : List String) (inputs : Nat → String × String) :
    OSState × List RejEvent :=
  let original_line := command_name ++ " " ++ join_spaces positional_args
  let cycles :=
    ((List.range MAX_VERIFICATION_CYCLES).map
      (fun c => rejection_cycle original_line (inputs c).1 (inputs c).2 c)).flatten
  let f := simulate_forwarding s "SECURITY_INCIDENT_REPORTING (SIR)"
  (f.1,
   ([RejEvent.friction] ++ cycles) ++ [RejEvent.forwarded "SECURITY_INCIDENT_REPORTING (SIR)"])

/-- Test for a cycle-start marker in a rejection trace. -/
def is_cycle_start : RejEvent → Bool
  | RejEvent.cycleStart _ => true
  | _ => false

/-- Test for a forwarding event in a rejection trace. -/
def is_forwarded_event : RejEvent → Bool
  | RejEvent.forwarded _ => true
  | _ => false

/-- kos_core.py `COMMANDS` dictionary keys. -/
def COMMANDS_keys : List String :=
  ["klogin", "klogout", "kls", "ls", "kexec", "./", "kstatus", "khalt",
   "shutdown", "exit", "help"]

/-- kos_core.py `command_loop` dispatch lookup: a token starting with `./`
maps to the exec handler, otherwise the lowercased token is looked up in
`COMMANDS`; `true` means a handler was found. -/
def known_command (token : String) : Bool :=
  py_starts_with token "./" || decide (py_lower token ∈ COMMANDS_keys)

/-- kos_core.py `command_loop`: the raw command names exempted from the
pre-command mandate check
(`command_name_raw not in ["klogin", "help", "exit", "shutdown", "khalt"]`). -/
def mandate_exempt (token : String) : Bool :=
  decide (token ∈ (["klogin", "help", "exit", "shutdown", "khalt"] : List String))

/-- How a continuing `command_loop` iteration ended. -/
inductive IterNote where
  | ranHandler
  | caughtError
  | unknownCommand
  | blockedByMandate
deriving DecidableEq, Repr

/-- Result of one `command_loop` iteration as seen from outside the loop body:
either the loop continues with the new state (and the note says how the
iteration ended), or a `SystemExit` escapes the loop. -/
inductive IterResult where
  | next (s : OSState) (evs : List String) (note : IterNote)
  | exit (code : Nat) (s : OSState) (evs : List String)
deriving DecidableEq, Repr

/-- kos_core.py `command_loop` `try/except Exception` around the handler call:
a normal handler return continues the loop, a raised `Exception` (such as the
`TypeError` from the two-argument `check_time_limit` calls) is caught and the
loop continues, and a `SystemExit` is NOT caught (it does not derive from
`Exception`) and escapes the loop.  `pre` holds events raised before the
handler ran (by the pre-command mandate check). -/
def catch_dispatch (o : Outcome Unit) (pre : List String) : IterResult :=
  match o with
  | Outcome.ok _ s evs => IterResult.next s (pre ++ evs) IterNote.ranHandler
  | Outcome.exc _ s evs => IterResult.next s (pre ++ evs) IterNote.caughtError
  | Outcome.exit c s evs => IterResult.exit c s (pre ++ evs)

/-- kos_core.py `command_loop`, one iteration for a non-empty input line whose
first token is `token`.  In order: `check_time_limit("Idle State")` — the one
call with correct arity, whose `sys.exit(2)` escapes everything — then the
handler lookup; an unknown token is logged (`Unknown command ... Command
ignored`) and the loop continues; a known, non-exempt token first passes the
STANDARD-clearance mandate check (denial skips the command); finally the
handler runs under `try/except Exception`.  The handler behaviour is the
`run` parameter, since each handler needs its own prompted inputs. -/
def command_loop_iteration (s : OSState) (now : Int) (token : String)
    (run : OSState → Outcome Unit) (day_of_week minute : Nat)
    (draw_backlog draw_spot : Bool) : IterResult :=
  match check_time_limit s now with
  | some code => IterResult.exit code s []
  | none =>
    if known_command token = false then IterResult.next s [] IterNote.unknownCommand
    else if mandate_exempt token then catch_dispatch (run s) []
    else
      let m := check_operational_mandate s "STANDARD" day_of_week minute
        draw_backlog draw_spot
      if m.1 then catch_dispatch (run m.2.1) m.2.2
      else IterResult.next m.2.1 m.2.2 IterNote.blockedByMandate

/-- main_kos.py: `kos_core.command_loop()` runs inside
`try: ... except SystemExit as e: kos_core.log_system_message(...)`.
The `SystemExit` raised by `sys.exit(2)` (budget exhaustion) or `sys.exit(0)`
(shutdown) is caught there, only logged, and not re-raised; the script then
falls through its `finally` block and ends normally, so the operating-system
exit status of the process is 0 in every case — the code passed to
`sys.exit` never reaches the operating system. -/
def process_exit_status : IterResult → Nat
  | IterResult.exit _ _ _ => 0
  | IterResult.next _ _ _ => 0

/-- One engine operation with all its injected inputs, for stating properties
over arbitrary operation sequences. -/
inductive EngineOp where
  | opLogin (username mfa : String) (now : Int)
  | opLogout (confirm : String)
  | opVerify (confirm_input reauth_input : String) (requires_purpose requires_reauth : Bool)
  | opMandate (clearance : String) (day_of_week minute : Nat) (draw_backlog draw_spot : Bool)
  | opTimeCheck (now : Int)
  | opShutdown (force_flag f_flag forced : Bool) (auth_code : Option String)
      (confirm_input reauth_input : String) (minute second : Nat)
  | opForward (entity_key : String)
  | opRejected (command_name : String) (positional_args : List String)
      (inputs : Nat → String × String)

/-- The state after one engine operation (`check_time_limit` never modifies
the state, whichever way it ends). -/
def apply_op : EngineOp → OSState → OSState
  | EngineOp.opLogin u m t, s => Outcome.state (handle_login s u m t)
  | EngineOp.opLogout c, s => Outcome.state (handle_logout s c)
  | EngineOp.opVerify ci ri rp rr, s => Outcome.state (verify_action_intent s ci ri rp rr)
  | EngineOp.opMandate cl d mi d2 d3, s => (check_operational_mandate s cl d mi d2 d3).2.1
  | EngineOp.opTimeCheck _, s => s
  | EngineOp.opShutdown ff f2 fo ac ci ri mi se, s =>
      Outcome.state (handle_shutdown s ff f2 fo ac ci ri mi se)
  | EngineOp.opForward k, s => (simulate_forwarding s k).1
  | EngineOp.opRejected cn pa ins, s => (handle_rejected_command s cn pa ins).1

/-- A sequence of engine operations applied in order. -/
def run_ops (ops : List EngineOp) (s : OSState) : OSState :=
  ops.foldl (fun st op => apply_op op st) s

/-- The invariant claimed for the session state: the authentication flag is
set exactly when an identity is recorded. -/
abbrev auth_inv (s : OSState) : Prop := s.is_authenticated = true ↔ s.user_id ≠ none

/-- A representative authenticated state: user `alice` logged in, timer
started, a small audit backlog. -/
def logged_in_state : OSState :=
  { user_id := some "alice", is_authenticated := true, session_start_time := 5,
    pending_reviews := 2, current_directory := "/home/user" }

/-- A state whose session budget is exhausted at instant 200: the timer
started at 1 and `TIME_LIMIT_SECONDS = 180 < 199`. -/
def timed_out_state : OSState :=
  { user_id := some "alice", is_authenticated := true, session_start_time := 1,
    pending_reviews := 0, current_directory := "/home/user" }

theorem dict_get_set_same (d : ArgsDict) (k : String) (v : PyVal) :
    dict_get (dict_set d k v) k = some v := by
  simp [dict_get, dict_set]

theorem dict_get_set_chars_untouched (cs : List Char) (d : ArgsDict) (k : String)
    (h : ∀ c ∈ cs, String.mk [c] ≠ k) :
    dict_get (dict_set_chars d cs) k = dict_get d k := by
  induction cs generalizing d with
  | nil => rfl
  | cons c cs ih =>
    rw [dict_set_chars, ih _ (fun c' hc' => h c' (List.mem_cons_of_mem _ hc'))]
    have hck : (String.mk [c] == k) = false := by
      exact beq_eq_false_iff_ne.mpr (h c (List.mem_cons_self c cs))
    simp [dict_get, dict_set, List.find?_cons, hck]

theorem dict_get_set_chars_mem (cs : List Char) (d : ArgsDict) (c : Char)
    (h : c ∈ cs) :
    dict_get (dict_set_chars d cs) (String.mk [c]) = some (PyVal.pybool true) := by
  induction cs generalizing d with
  | nil => exact absurd h (List.not_mem_nil c)
  | cons c' cs ih =>
    by_cases hcs : c ∈ cs
    · rw [dict_set_chars]
      exact ih _ hcs
    · have hcc : c = c' := by
        rcases List.mem_cons.mp h with h1 | h1
        · exact h1
        · exact absurd h1 hcs
      subst hcc
      rw [dict_set_chars,
        dict_get_set_chars_untouched cs _ _
          (fun c'' hc'' => by
            intro he
            have : c'' = c := by
              have := congrArg String.data he
              simpa using this
            exact hcs (this ▸ hc'')),
        dict_get_set_same]

/-- C5: the single-dash branch of `parse_args`.  A token that starts with `-`
but not `--` sets each of its characters after the dash to the Python boolean
`True` and never consumes the following token, which is then processed on its
own (as a positional argument when it does not start with `-`); in
particular `-p CODE` yields `args["p"] = True` with `CODE` positional, and the
purpose gate of `handle_ls` compares that `True` against the required
purpose-code string, which can never succeed. -/
theorem c5_single_dash_flag_semantics :
    (∀ (args : ArgsDict) (pos : List String) (tok : String) (rest : List String),
        py_starts_with tok "-" = true → py_starts_with tok "--" = false →
        parse_args_go args pos (tok :: rest)
          = parse_args_go (dict_set_chars args (py_drop tok 1).toList) pos rest)
    ∧ (∀ (args : ArgsDict) (cs : List Char) (c : Char), c ∈ cs →
        dict_get (dict_set_chars args cs) (String.mk [c]) = some (PyVal.pybool true))
    ∧ (∀ (code : String), py_starts_with code "-" = false →
        py_starts_with code "--" = false →
        parse_args ["-p", code] = ([("p", PyVal.pybool true)], [code]))
    ∧ (∀ (d : ArgsDict), dict_get d "p" = some (PyVal.pybool true) →
        dict_get d "purpose" = none → ls_purpose_gate d = false) := by
  refine ⟨?_, ?_, ?_, ?_⟩
  · intro args pos tok rest h1 h2
    conv_lhs => rw [parse_args_go.eq_def]
    simp [h1, h2]
  · intro args cs c h
    exact dict_get_set_chars_mem cs args c h
  · intro code h1 h2
    have e1 : py_starts_with "-p" "--" = false := by decide
    have e2 : py_starts_with "-p" "-" = true := by decide
    have e3 : (py_drop "-p" 1).toList = ['p'] := by decide
    have e4 : dict_set_chars [] ['p'] = [("p", PyVal.pybool true)] := by decide
    rw [parse_args, parse_args_go]
    simp only [e1, e2, if_false, if_true, Bool.false_eq_true, e3, e4]
    rw [parse_args_go]
    simp only [h1, h2, Bool.false_eq_true, if_false]
    rfl
  · intro d hp hq
    simp [ls_purpose_gate, py_or, py_truthy, py_val_eq_str, hp, hq]

/-- C5 witness: instantiation at the documented invocation
`kls -p FS-QUERY-7701`. -/
theorem c5_witness :
    parse_args_go [] [] ["-p", "FS-QUERY-7701"]
        = parse_args_go (dict_set_chars [] (py_drop "-p" 1).toList) [] ["FS-QUERY-7701"]
    ∧ dict_get (dict_set_chars [] ['p']) (String.mk ['p']) = some (PyVal.pybool true)
    ∧ parse_args ["-p", "FS-QUERY-7701"]
        = ([("p", PyVal.pybool true)], ["FS-QUERY-7701"])
    ∧ ls_purpose_gate [("p", PyVal.pybool true)] = false :=
  ⟨c5_single_dash_flag_semantics.1 [] [] "-p" ["FS-QUERY-7701"] (by decide) (by decide),
   c5_single_dash_flag_semantics.2.1 [] ['p'] 'p' (by decide),
   c5_single_dash_flag_semantics.2.2.1 "FS-QUERY-7701" (by decide) (by decide),
   c5_single_dash_flag_semantics.2.2.2 [("p", PyVal.pybool true)] (by decide) (by decide)⟩

theorem int_sqrt_go_sq_le (n : Nat) : ∀ k, int_sqrt_go n k * int_sqrt_go n k ≤ n
  | 0 => Nat.zero_le n
  | k + 1 => by
    rw [int_sqrt_go]
    split
    · assumption
    · exact int_sqrt_go_sq_le n k

theorem le_int_sqrt_go (n : Nat) : ∀ k i, i ≤ k → i * i ≤ n → i ≤ int_sqrt_go n k
  | 0, i, hik, _ => by omega
  | k + 1, i, hik, hin => by
    rw [int_sqrt_go]
    split
    · exact hik
    · have hne : i ≠ k + 1 := by
        intro he
        subst he
        omega
      exact le_int_sqrt_go n k i (by omega) hin

theorem int_sqrt_eq_sqrt (n : Nat) : int_sqrt n = Nat.sqrt n := by
  refine Nat.le_antisymm ?_ ?_
  · exact Nat.le_sqrt.mpr (int_sqrt_go_sq_le n n)
  · exact le_int_sqrt_go n n (Nat.sqrt n) (Nat.sqrt_le_self n) (Nat.le_sqrt.mp (le_refl _))

theorem is_prime_src_of_prime (m : Nat) (hm : Nat.Prime m) : is_prime_src m = true := by
  have h2 : 2 ≤ m := hm.two_le
  rw [is_prime_src, if_neg (by omega), List.all_eq_true]
  intro i hi
  obtain ⟨hi2, hilt⟩ := List.mem_range'_1.mp hi
  have hs1 : 1 ≤ int_sqrt m := le_int_sqrt_go m m 1 (by omega) (by omega)
  have his : i ≤ int_sqrt m := by omega
  have hii : i * i ≤ m :=
    le_trans (Nat.mul_le_mul his his) (int_sqrt_go_sq_le m m)
  rw [bne_iff_ne]
  intro hmod
  have hdvd : i ∣ m := Nat.dvd_of_mod_eq_zero hmod
  rcases (Nat.Prime.eq_one_or_self_of_dvd hm i hdvd) with h1 | h1
  · omega
  · subst h1
    have : 2 * i ≤ i * i := Nat.mul_le_mul_right i (by omega)
    omega

/-- C8: the prime-minute filesystem rule of `check_operational_mandate`.  With
clearance FILESYSTEM on the configured weekday, a prime minute denies
deterministically, whatever the two random draws and the backlog; a minute
below 2 is never treated as prime; minute 4 does not trigger rule 1 (with both
draws negative the evaluation is allowed); and the trial-division bound
`int_sqrt` is exactly the integer square root. -/
theorem c8_prime_minute_rule :
    (∀ (s : OSState) (minute : Nat) (draw_backlog draw_spot : Bool),
        Nat.Prime minute →
        (check_operational_mandate s "FILESYSTEM" LOCKOUT_PRIME_MINUTE_FILESYSTEM_DAY
            minute draw_backlog draw_spot).1 = false)
    ∧ (∀ m : Nat, m < 2 → is_prime_src m = false)
    ∧ (∀ s : OSState,
        (check_operational_mandate s "FILESYSTEM" LOCKOUT_PRIME_MINUTE_FILESYSTEM_DAY
            4 false false).1 = true)
    ∧ (∀ n : Nat, int_sqrt n = Nat.sqrt n) := by
  refine ⟨?_, ?_, ?_, int_sqrt_eq_sqrt⟩
  · intro s minute d2 d3 hp
    simp [check_operational_mandate, is_prime_src_of_prime minute hp,
      apply_procedural_friction]
  · intro m hm
    rw [is_prime_src, if_pos hm]
  · intro s
    have h4 : is_prime_src 4 = false := by decide
    simp [check_operational_mandate, h4, apply_procedural_friction]

/-- C8 witness: minute 7 (prime) denies, minute 1 is not prime, minute 4 does
not trigger rule 1. -/
theorem c8_witness :
    (check_operational_mandate initial_os_state "FILESYSTEM"
        LOCKOUT_PRIME_MINUTE_FILESYSTEM_DAY 7 false true).1 = false
    ∧ is_prime_src 1 = false
    ∧ (check_operational_mandate initial_os_state "FILESYSTEM"
        LOCKOUT_PRIME_MINUTE_FILESYSTEM_DAY 4 false false).1 = true :=
  ⟨c8_prime_minute_rule.1 initial_os_state 7 false true (by decide),
   c8_prime_minute_rule.2.1 1 (by decide),
   c8_prime_minute_rule.2.2.1 initial_os_state⟩

/-- C10: every denial of `check_operational_mandate` — by the prime-minute
rule, the backlog lockout, or the random spot-check — raises exactly one
forwarding event, tagged ARBITRARY_LOCKOUT, and so increments
`pending_reviews` by exactly one before `False` is returned. -/
theorem c10_denial_single_lockout_event :
    ∀ (s : OSState) (clearance : String) (day_of_week minute : Nat)
      (draw_backlog draw_spot : Bool),
      (check_operational_mandate s clearance day_of_week minute
          draw_backlog draw_spot).1 = false →
      (check_operational_mandate s clearance day_of_week minute
          draw_backlog draw_spot).2.2 = ["ARBITRARY_LOCKOUT"]
      ∧ (check_operational_mandate s clearance day_of_week minute
          draw_backlog draw_spot).2.1.pending_reviews = s.pending_reviews + 1 := by
  intro s cl day minute d2 d3 h
  rw [check_operational_mandate] at h ⊢
  split_ifs at h ⊢ <;>
    simp_all [simulate_forwarding, apply_procedural_friction]

/-- C10 witness: a concrete denial (prime minute 7 on the configured day). -/
theorem c10_witness :
    (check_operational_mandate initial_os_state "FILESYSTEM" 1 7 false false).2.2
        = ["ARBITRARY_LOCKOUT"]
    ∧ (check_operational_mandate initial_os_state "FILESYSTEM" 1 7
        false false).2.1.pending_reviews = initial_os_state.pending_reviews + 1 :=
  c10_denial_single_lockout_event initial_os_state "FILESYSTEM" 1 7 false false (by decide)

/-- C1: on the fresh state, every `klogin` attempt — whatever the username,
MFA token, and clock — raises `TypeError` at the very first action
`check_time(os_state["session_start_time"], "Authentication")`, before the
username is even prompted, leaving the state unchanged (not authenticated,
no AUTH forwarding event, backlog untouched).  The successful path claimed by
the spec is unreachable. -/
theorem c1_login_always_raises_type_error :
    ∀ (username mfa : String) (now : Int),
      handle_login initial_os_state username mfa now
        = Outcome.exc PyExc.typeError initial_os_state [] :=
  fun _ _ _ => rfl

/-- C9: every call to `verify_action_intent` — whatever the prompted inputs
and the step requirements — raises `TypeError` at its first two-argument
`check_time_limit` call, before the confirmation phrase is prompted; the state
is unchanged and the emitted event list is empty, so in particular zero
PURPOSE_VALIDATION, RE_AUTH, and CMD_INTENT forwarding events are raised, but
the function raises instead of returning `False`. -/
theorem c9_verify_always_raises_type_error :
    ∀ (s : OSState) (confirm_input reauth_input : String)
      (requires_purpose requires_reauth : Bool),
      verify_action_intent s confirm_input reauth_input requires_purpose requires_reauth
        = Outcome.exc PyExc.typeError s [] :=
  fun _ _ _ _ _ => rfl

theorem check_time_limit_expired (s : OSState) (now : Int)
    (h1 : s.session_start_time ≠ 0)
    (h2 : now - s.session_start_time > TIME_LIMIT_SECONDS) :
    check_time_limit s now = some 2 := by
  rw [check_time_limit, if_neg h1, if_pos h2]

/-- C2 counterexample: the token `pwd` is not in the command table, and the
actual iteration of `command_loop` on it merely logs and continues: the state
is unchanged, no forwarding event is raised (in particular no terminal
security-incident event), and `handle_rejected_command` is not involved —
contradicting the claim that the Circular Rejection Protocol runs. -/
theorem c2_counterexample :
    known_command "pwd" = false
    ∧ command_loop_iteration initial_os_state 0 "pwd" (fun s => Outcome.ok () s [])
        0 0 false false
      = IterResult.next initial_os_state [] IterNote.unknownCommand := by
  constructor
  · decide
  · decide

/-- C2 (amended): for every command token without a handler (not a `./` token
and not in `COMMANDS`), when the session budget is not exhausted the command
loop logs `Unknown command ... Command ignored`, raises no forwarding event,
leaves the state unchanged, and continues with the next iteration; the
Circular Rejection Protocol of kos_rejection.py is never invoked (kos_core.py
does not even import that module). -/
theorem c2_unknown_command_logged_and_ignored :
    ∀ (s : OSState) (now : Int) (token : String) (run : OSState → Outcome Unit)
      (day_of_week minute : Nat) (draw_backlog draw_spot : Bool),
      known_command token = false → check_time_limit s now = none →
      command_loop_iteration s now token run day_of_week minute draw_backlog draw_spot
        = IterResult.next s [] IterNote.unknownCommand := by
  intro s now token run day minute d2 d3 h1 h2
  rw [command_loop_iteration, h2]
  simp [h1]

/-- C2 witness: the unknown token `pwd` on the fresh state. -/
theorem c2_witness :
    command_loop_iteration initial_os_state 0 "pwd" (fun s => Outcome.ok () s [])
        0 0 false false
      = IterResult.next initial_os_state [] IterNote.unknownCommand :=
  c2_unknown_command_logged_and_ignored initial_os_state 0 "pwd"
    (fun s => Outcome.ok () s []) 0 0 false false (by decide) (by decide)

/-- C3 counterexample: a session whose budget is exhausted (timer started at
instant 1, now 200, quantum 180).  `check_time_limit` does raise
`SystemExit(2)` and the loop iteration ends with it, but main_kos.py catches
`SystemExit`, only logs it, and ends normally, so the process exit status is
0 — not the claimed 2, and not distinct from the normal-shutdown status. -/
theorem c3_counterexample :
    check_time_limit timed_out_state 200 = some 2
    ∧ process_exit_status
        (command_loop_iteration timed_out_state 200 "kstatus"
          (fun s => Outcome.ok () s []) 0 0 false false) = 0
    ∧ (0 : Nat) ≠ 2 := by
  refine ⟨by decide, by decide, by decide⟩

/-- C3 (amended): with the session timer set and the elapsed monotonic time
beyond `TIME_LIMIT_SECONDS`, `check_time_limit` raises `SystemExit(2)` and
never returns normally; the iteration of `command_loop` then terminates
immediately with that `SystemExit` — no handler runs and no event is raised —
and a `SystemExit` raised inside a handler likewise escapes, because `except
Exception` catches `Exception`s but not `SystemExit`; however, the top-level
entry point main_kos.py catches `SystemExit` without re-raising, so the
process exit status is 0 rather than 2. -/
theorem c3_budget_exhaustion_terminates_loop :
    (∀ (s : OSState) (now : Int), s.session_start_time ≠ 0 →
        now - s.session_start_time > TIME_LIMIT_SECONDS →
        check_time_limit s now = some 2)
    ∧ (∀ (s : OSState) (now : Int) (token : String) (run : OSState → Outcome Unit)
        (day_of_week minute : Nat) (draw_backlog draw_spot : Bool),
        s.session_start_time ≠ 0 →
        now - s.session_start_time > TIME_LIMIT_SECONDS →
        command_loop_iteration s now token run day_of_week minute draw_backlog draw_spot
          = IterResult.exit 2 s [])
    ∧ (∀ (code : Nat) (s : OSState) (evs pre : List String),
        catch_dispatch (Outcome.exit code s evs) pre
          = IterResult.exit code s (pre ++ evs))
    ∧ (∀ (e : PyExc) (s : OSState) (evs pre : List String),
        catch_dispatch (Outcome.exc e s evs) pre
          = IterResult.next s (pre ++ evs) IterNote.caughtError)
    ∧ (∀ (code : Nat) (s : OSState) (evs : List String),
        process_exit_status (IterResult.exit code s evs) = 0) := by
  refine ⟨check_time_limit_expired, ?_, fun _ _ _ _ => rfl, fun _ _ _ _ => rfl,
    fun _ _ _ => rfl⟩
  intro s now token run day minute d2 d3 h1 h2
  rw [command_loop_iteration, check_time_limit_expired s now h1 h2]

/-- C3 witness: the exhausted session at instant 200. -/
theorem c3_witness :
    check_time_limit timed_out_state 200 = some 2
    ∧ command_loop_iteration timed_out_state 200 "kstatus"
        (fun s => Outcome.ok () s []) 0 0 false false
      = IterResult.exit 2 timed_out_state [] :=
  ⟨c3_budget_exhaustion_terminates_loop.1 timed_out_state 200 (by decide) (by decide),
   c3_budget_exhaustion_terminates_loop.2.1 timed_out_state 200 "kstatus"
     (fun s => Outcome.ok () s []) 0 0 false false (by decide) (by decide)⟩

theorem rejection_cycle_filter_cycle_start (ol rc j : String) (c : Nat) :
    (rejection_cycle ol rc j c).filter is_cycle_start = [RejEvent.cycleStart c] := by
  rw [rejection_cycle]
  split <;> simp [is_cycle_start]

theorem rejection_cycle_filter_forwarded (ol rc j : String) (c : Nat) :
    (rejection_cycle ol rc j c).filter is_forwarded_event = [] := by
  rw [rejection_cycle]
  split <;> simp [is_forwarded_event]

theorem rejection_cycle_ends_with_friction (ol rc j : String) (c : Nat) :
    (rejection_cycle ol rc j c).getLast? = some RejEvent.friction := by
  rw [rejection_cycle]
  split <;> rfl

theorem handle_rejected_trace (s : OSState) (cn : String) (pa : List String)
    (ins : Nat → String × String) :
    (handle_rejected_command s cn pa ins).2
      = ([RejEvent.friction]
          ++ (rejection_cycle (cn ++ " " ++ join_spaces pa) (ins 0).1 (ins 0).2 0
            ++ (rejection_cycle (cn ++ " " ++ join_spaces pa) (ins 1).1 (ins 1).2 1
              ++ (rejection_cycle (cn ++ " " ++ join_spaces pa) (ins 2).1 (ins 2).2 2
                ++ []))))
        ++ [RejEvent.forwarded "SECURITY_INCIDENT_REPORTING (SIR)"] := rfl

/-- C4: properties of the (reconstructed) Circular Rejection Protocol, for
every starting state and every input sequence — including one that retypes
the original command line verbatim and supplies a well-formed GJC justification
code: the trace contains exactly `MAX_VERIFICATION_CYCLES` cycle starts, its
forwarding events are exactly the one terminal Security Incident Reporting
event, that terminal event is the last step (after the last cycle), every
cycle ends with a friction application, and the backlog rises by exactly one.
There is no success outcome: the result type of `handle_rejected_command` has
no success component and the rejected command is never executed. -/
theorem c4_rejection_protocol_always_fails :
    ∀ (s : OSState) (command_name : String) (positional_args : List String)
      (inputs : Nat → String × String),
      ((handle_rejected_command s command_name positional_args inputs).2.filter
          is_cycle_start).length = MAX_VERIFICATION_CYCLES
      ∧ (handle_rejected_command s command_name positional_args inputs).2.filter
          is_forwarded_event = [RejEvent.forwarded "SECURITY_INCIDENT_REPORTING (SIR)"]
      ∧ (handle_rejected_command s command_name positional_args inputs).2.getLast?
          = some (RejEvent.forwarded "SECURITY_INCIDENT_REPORTING (SIR)")
      ∧ (∀ (ol rc j : String) (c : Nat),
          (rejection_cycle ol rc j c).getLast? = some RejEvent.friction)
      ∧ (handle_rejected_command s command_name positional_args inputs).1.pending_reviews
          = s.pending_reviews + 1 := by
  intro s cn pa ins
  refine ⟨?_, ?_, ?_, rejection_cycle_ends_with_friction, rfl⟩
  · rw [handle_rejected_trace]
    simp [List.filter_append, rejection_cycle_filter_cycle_start, is_cycle_start,
      MAX_VERIFICATION_CYCLES]
  · rw [handle_rejected_trace]
    simp [List.filter_append, rejection_cycle_filter_forwarded, is_forwarded_event]
  · rw [handle_rejected_trace, List.getLast?_concat]

theorem handle_login_state_eq (s : OSState) (username mfa : String) (now : Int) :
    Outcome.state (handle_login s username mfa now) = s := by
  by_cases h : s.is_authenticated = true
  · simp [handle_login, h, Outcome.state]
  · simp [handle_login, h, check_time_limit_two_arg_call, Outcome.state]

/-- C6 counterexample: from the authenticated state, the (forced) shutdown
path clears `is_authenticated` but leaves `user_id` set, so the
claimed invariant fails in the final state at `sys.exit(0)`. -/
theorem c6_counterexample :
    auth_inv logged_in_state
    ∧ ¬ auth_inv (Outcome.state
        (handle_shutdown logged_in_state false false true none "x" "y" 0 0)) :=
  ⟨by decide, by decide⟩

/-- C6 (amended): the invariant `is_authenticated = true ↔ user_id is set`
holds in the initial state and is preserved by `handle_login` (which, in the
current code, never changes the state at all) and by `handle_logout` (which
clears flag and identity together); the shutdown path, however, clears only
the authentication flag and leaves the identity exactly as it was, so the
invariant is violated in the state at process exit whenever a user was
authenticated. -/
theorem c6_auth_identity_invariant :
    auth_inv initial_os_state
    ∧ (∀ (s : OSState) (username mfa : String) (now : Int), auth_inv s →
        auth_inv (Outcome.state (handle_login s username mfa now)))
    ∧ (∀ (s : OSState) (confirm : String), auth_inv s →
        auth_inv (Outcome.state (handle_logout s confirm)))
    ∧ (∀ (s : OSState) (auth_code : Option String) (ci ri : String) (mi se : Nat),
        s.is_authenticated = true →
        (Outcome.state
            (handle_shutdown s false false true auth_code ci ri mi se)).is_authenticated
            = false
        ∧ (Outcome.state
            (handle_shutdown s false false true auth_code ci ri mi se)).user_id
            = s.user_id) := by
  refine ⟨by decide, ?_, ?_, ?_⟩
  · intro s username mfa now hinv
    rw [handle_login_state_eq]
    exact hinv
  · intro s confirm hinv
    rw [handle_logout]
    split_ifs <;> simp_all [Outcome.state, simulate_forwarding, auth_inv]
  · intro s auth_code ci ri mi se hauth
    constructor <;>
      simp [handle_shutdown, shutdown_finalize, simulate_forwarding, Outcome.state]

/-- C6 witness: instantiation of the preservation statements at concrete
states and of the shutdown statement at the authenticated state. -/
theorem c6_witness :
    auth_inv (Outcome.state (handle_login initial_os_state "bob" "123456" 3))
    ∧ auth_inv (Outcome.state (handle_logout logged_in_state "TERMINATE_SESSION"))
    ∧ (Outcome.state
        (handle_shutdown logged_in_state false false true none "x" "y" 0 0)).user_id
        = logged_in_state.user_id :=
  ⟨c6_auth_identity_invariant.2.1 initial_os_state "bob" "123456" 3 (by decide),
   c6_auth_identity_invariant.2.2.1 logged_in_state "TERMINATE_SESSION" (by decide),
   (c6_auth_identity_invariant.2.2.2 logged_in_state none "x" "y" 0 0 (by decide)).2⟩

theorem apply_op_pending_le (op : EngineOp) (s : OSState) :
    s.pending_reviews ≤ (apply_op op s).pending_reviews := by
  cases op with
  | opLogin u m t =>
    rw [apply_op, handle_login_state_eq]
  | opLogout c =>
    rw [apply_op, handle_logout]
    split_ifs <;> simp [Outcome.state, simulate_forwarding]
  | opVerify ci ri rp rr =>
    exact Nat.le.refl
  | opMandate cl day minute d2 d3 =>
    rw [apply_op, check_operational_mandate]
    split_ifs <;> simp [simulate_forwarding, apply_procedural_friction]
  | opTimeCheck now =>
    exact Nat.le.refl
  | opShutdown ff f2 fo ac ci ri mi se =>
    rw [apply_op, handle_shutdown]
    split_ifs <;>
      simp [Outcome.state, check_time_limit_two_arg_call, shutdown_finalize,
        simulate_forwarding]
  | opForward k =>
    simp [apply_op, simulate_forwarding]
  | opRejected cn pa ins =>
    exact Nat.le_succ _

theorem run_ops_pending_le (ops : List EngineOp) (s : OSState) :
    s.pending_reviews ≤ (run_ops ops s).pending_reviews := by
  induction ops generalizing s with
  | nil => exact Nat.le.refl
  | cons op ops ih =>
    exact le_trans (apply_op_pending_le op s) (ih (apply_op op s))

/-- C7: `simulate_forwarding` always succeeds (it is a total function on
states) and increments `pending_reviews` by exactly one; no engine operation
ever decreases `pending_reviews`; hence over any sequence of engine operations
the backlog is monotonically non-decreasing. -/
theorem c7_backlog_monotone :
    (∀ (s : OSState) (entity_key : String),
        (simulate_forwarding s entity_key).1.pending_reviews = s.pending_reviews + 1)
    ∧ (∀ (op : EngineOp) (s : OSState),
        s.pending_reviews ≤ (apply_op op s).pending_reviews)
    ∧ (∀ (ops : List EngineOp) (s : OSState),
        s.pending_reviews ≤ (run_ops ops s).pending_reviews) :=
  ⟨fun _ _ => rfl, apply_op_pending_le, run_ops_pending_le⟩
